import Mathlib

/-!
Verification development for the ASAP financial dashboard backend
(`src/server.js`). The JavaScript source is shallowly embedded: each
relevant handler or helper becomes a pure Lean function over explicit
inputs (HTTP bodies, upstream page responses, the in-memory rule store),
JavaScript numbers become rationals, and absent/`undefined` string fields
become the empty string, matching the `||`-fallback idiom of the source.
-/

namespace Server

/-- JavaScript `a || b` on strings: the empty string is falsy. -/
def jsOr (a b : String) : String := if a = "" then b else a

/-- JavaScript `s.toLowerCase()`, character-wise over the string's
character list (the strings of this code base are ASCII). -/
def jsToLower (s : String) : String := ⟨s.data.map Char.toLower⟩

/-- JavaScript `s.startsWith(pat)`. -/
def strStartsWith (s pat : String) : Bool := pat.data.isPrefixOf s.data

/-- Substring test on character lists: true iff `pat` occurs contiguously
inside `s` (the semantics of JavaScript `String.prototype.includes`). -/
def hasSubstr (s pat : List Char) : Bool :=
  pat.isPrefixOf s ||
    (match s with
     | [] => false
     | _ :: t => hasSubstr t pat)

/-- JavaScript `s.includes(pat)` on strings. -/
def strIncludes (s pat : String) : Bool := hasSubstr s.toList pat.toList

/-- A learned categorization rule as stored in `learnedRules`
(`src/server.js`).  `confidence` is `none` when the JSON field is absent
or null; `timesUsed = 0` models an absent `timesUsed` field (both are
falsy in the source's `(timesUsed || 1)` and `confidence || 1.0`). -/
structure LearnedRule where
  id : String
  pattern : String
  patternType : String
  categoryId : String
  categoryName : String
  confidence : Option ℚ
  timesUsed : Nat
  createdAt : String
  updatedAt : String
  deriving Repr, DecidableEq

/-- A categorization suggestion as returned by `findMatchingRule`. -/
structure Suggestion where
  categoryId : String
  categoryName : String
  confidence : ℚ
  source : String
  ruleId : String
  deriving Repr, DecidableEq

/-- JavaScript `rule.confidence || 1.0`: absent, null and `0` all fall
back to `1.0`. -/
def confOrOne (c : Option ℚ) : ℚ :=
  match c with
  | none => 1
  | some v => if v = 0 then 1 else v

/-- The search key built by `findMatchingRule`:
`` `${description} ${vendorName}`.toLowerCase() ``. -/
def searchKey (description vendorName : String) : String :=
  jsToLower (description ++ " " ++ vendorName)

/-- The per-rule match test of `findMatchingRule` (src/server.js:368-378):
`exact` compares for equality, `starts_with` uses `startsWith`, anything
else defaults to `includes`. -/
def ruleMatches (searchText : String) (rule : LearnedRule) : Bool :=
  let pattern := jsToLower rule.pattern
  if rule.patternType = "exact" then searchText = pattern
  else if rule.patternType = "starts_with" then strStartsWith searchText pattern
  else strIncludes searchText pattern

/-- The suggestion built from a matched rule (src/server.js:381-387). -/
def suggestionOfRule (rule : LearnedRule) : Suggestion :=
  { categoryId := rule.categoryId
    categoryName := rule.categoryName
    confidence := confOrOne rule.confidence
    source := "learned_rule"
    ruleId := rule.id }

/-- First rule of the store matching the search text (the `for` loop of
`findMatchingRule`). -/
def firstMatch (searchText : String) : List LearnedRule → Option LearnedRule
  | [] => none
  | r :: rs => if ruleMatches searchText r then some r else firstMatch searchText rs

/-- The function `findMatchingRule(description, vendorName)`
(src/server.js:364-392). -/
def findMatchingRule (rules : List LearnedRule) (description vendorName : String) :
    Option Suggestion :=
  (firstMatch (searchKey description vendorName) rules).map suggestionOfRule

/-- Result of the `POST /api/quickbooks/categorize` handler, together with
whether the AI classifier (`aiCategorize`) was invoked on this path. -/
structure CategorizeResult where
  suggestion : Option Suggestion
  autoApproved : Bool
  classifierInvoked : Bool
  deriving Repr, DecidableEq

/-- The `POST /api/quickbooks/categorize` handler (src/server.js:455-487),
with the classifier's output abstracted as `classifier` (`aiCategorize`
returns null both on malformed output and when the AI client is absent,
modelled by `none`).  A rule match with confidence ≥ 0.95 returns
immediately with `autoApproved = true`; otherwise the handler falls back
to `aiResult || ruleMatch` with `autoApproved = false`. -/
def categorize (rules : List LearnedRule) (description vendorName : String)
    (classifier : Option Suggestion) : CategorizeResult :=
  match findMatchingRule rules description vendorName with
  | some ruleMatch =>
    if ruleMatch.confidence ≥ 95 / 100 then
      { suggestion := some ruleMatch, autoApproved := true, classifierInvoked := false }
    else
      { suggestion := (classifier.orElse fun _ => some ruleMatch)
        autoApproved := false
        classifierInvoked := true }
  | none =>
    { suggestion := classifier, autoApproved := false, classifierInvoked := true }

/-! ### Rule store: learn-rule and delete (src/server.js:589-647) -/

/-- The `(pattern, patternType)` key under which the learn-rule handler
deduplicates rules (patterns compared lower-cased). -/
def ruleKey (r : LearnedRule) : String × String := (jsToLower r.pattern, r.patternType)

/-- The existing-rule test of the learn-rule handler
(src/server.js:594-596):
`r.pattern.toLowerCase() === pattern.toLowerCase() && r.patternType === patternType`. -/
def teachMatches (pattern patternType : String) (r : LearnedRule) : Bool :=
  jsToLower r.pattern = jsToLower pattern && r.patternType = patternType

/-- In-place update of an existing rule (src/server.js:599-603):
overwrite the category target, bump `timesUsed` (an absent `timesUsed`,
modelled as `0`, is read as `1` by the source's `(timesUsed || 1)`),
stamp `updatedAt`. -/
def bumpRule (categoryId categoryName now : String) (r : LearnedRule) : LearnedRule :=
  { r with
    categoryId := categoryId
    categoryName := categoryName
    timesUsed := (if r.timesUsed = 0 then 1 else r.timesUsed) + 1
    updatedAt := now }

/-- The fresh rule inserted when no existing rule matches
(src/server.js:605-615).  `now` stands for the `Date.now()` /
`toISOString()` timestamp taken at the call. -/
def freshRule (now pattern patternType categoryId categoryName : String) : LearnedRule :=
  { id := "rule-" ++ now
    pattern := pattern
    patternType := patternType
    categoryId := categoryId
    categoryName := categoryName
    confidence := some 1
    timesUsed := 1
    createdAt := now
    updatedAt := "" }

/-- Apply `f` to the first element satisfying `p` (the
`findIndex`-then-mutate idiom of the learn-rule handler); `none` when no
element matches. -/
def updateFirst (p : α → Bool) (f : α → α) : List α → Option (List α)
  | [] => none
  | x :: xs => if p x then some (f x :: xs) else (updateFirst p f xs).map (x :: ·)

/-- The rule-store mutation performed by `POST /api/quickbooks/learn-rule`
(src/server.js:589-616): update the first rule with the same
lower-cased pattern and pattern type, else append a fresh rule. -/
def teach (now pattern patternType categoryId categoryName : String)
    (rules : List LearnedRule) : List LearnedRule :=
  match updateFirst (teachMatches pattern patternType)
      (bumpRule categoryId categoryName now) rules with
  | some rules' => rules'
  | none => rules ++ [freshRule now pattern patternType categoryId categoryName]

/-- The uniqueness invariant of §3 of the spec: at most one rule per
(normalized pattern, patternType) pair. -/
def uniqueRuleKeys (rules : List LearnedRule) : Prop := (rules.map ruleKey).Nodup

/-- Outcome of the underlying `fs.writeFileSync` call. -/
inductive WriteResult where
  | ok
  | ioError
  deriving Repr, DecidableEq

/-- The raw file write performed inside `saveRules`. -/
def writeRulesFile : WriteResult → Except String Unit
  | .ok => .ok ()
  | .ioError => .error "EIO: write failed"

/-- The function `saveRules` (src/server.js:114-120): the write is wrapped in
`try { ... } catch (err) { console.error(...) }`, so a failing write is
swallowed and `saveRules` always returns normally. -/
def saveRules (w : WriteResult) : Except String Unit :=
  match writeRulesFile w with
  | .ok _ => .ok ()
  | .error _ => .ok ()

/-- The JSON body sent back by the rule handlers (only the fields the
claims are about: HTTP status and the `success` flag). -/
structure ApiResponse where
  status : Nat
  success : Bool
  deriving Repr, DecidableEq

/-- The `POST /api/quickbooks/learn-rule` handler (src/server.js:589-630):
mutate the store via `teach`, call `saveRules`, and answer.  The `catch`
branch (HTTP 500) is reachable only if `saveRules` propagates an error. -/
def learnRuleHandler (now pattern patternType categoryId categoryName : String)
    (rules : List LearnedRule) (w : WriteResult) : List LearnedRule × ApiResponse :=
  let rules' := teach now pattern patternType categoryId categoryName rules
  match saveRules w with
  | .error _ => (rules', { status := 500, success := false })
  | .ok _ => (rules', { status := 200, success := true })

/-- The `DELETE /api/quickbooks/rules/:id` handler (src/server.js:638-647):
filter the rule out, call `saveRules`, and answer. -/
def deleteRuleHandler (id : String) (rules : List LearnedRule) (w : WriteResult) :
    List LearnedRule × ApiResponse :=
  let rules' := rules.filter (fun r => r.id ≠ id)
  match saveRules w with
  | .error _ => (rules', { status := 500, success := false })
  | .ok _ => (rules', { status := 200, success := true })

/-! ### Plaid transaction ingestion (src/server.js:1508-1691) -/

/-- A raw Plaid transaction as delivered by `transactions/sync` and
`transactions/get`.  Absent string fields are modelled as `""` and an
absent legacy `category` array as `[]`, matching their falsiness under
the source's `||` fallbacks. -/
structure PlaidRawTxn where
  transaction_id : String
  account_id : String
  date : String
  name : String
  merchant_name : String
  amount : ℚ
  pfcPrimary : String
  pfcDetailed : String
  category : List String
  pending : Bool
  deriving Repr, DecidableEq

/-- A bank-feed transaction as stored by the sync and list handlers. -/
structure BankTxn where
  id : String
  plaid_account_id : String
  account_id : String
  institution : String
  date : String
  description : String
  merchant_name : String
  amount : ℚ
  category : String
  category_detailed : String
  pending : Bool
  type : String
  source : String
  deriving Repr, DecidableEq

/-- The per-transaction mapping shared by the `POST /api/plaid/sync`
handler (src/server.js:1549-1563) and the `GET /api/plaid/transactions`
handler (src/server.js:1643-1657).  The upstream amount is stored
unchanged (the source comment: Plaid reports positive for debits,
negative for credits) and the transaction kind is derived from its sign:
`t.amount > 0 ? 'expense' : 'income'`. -/
def mapPlaidTxn (plaidAccountId institutionName : String) (t : PlaidRawTxn) : BankTxn :=
  { id := t.transaction_id
    plaid_account_id := plaidAccountId
    account_id := t.account_id
    institution := institutionName
    date := t.date
    description := t.name
    merchant_name := t.merchant_name
    amount := t.amount
    category := jsOr t.pfcPrimary (jsOr (t.category.headD "") "Uncategorized")
    category_detailed := jsOr t.pfcDetailed (String.intercalate " > " t.category)
    pending := t.pending
    type := if t.amount > 0 then "expense" else "income"
    source := "plaid" }

/-- The filter-then-map step applied to each upstream batch by both
handlers: drop transactions of excluded accounts, map the rest. -/
def plaidFilterMap (excludedAccounts : List String) (plaidAccountId institutionName : String)
    (batch : List PlaidRawTxn) : List BankTxn :=
  (batch.filter (fun t => !excludedAccounts.contains t.account_id)).map
    (mapPlaidTxn plaidAccountId institutionName)

/-- One upstream response of the paginated `transactions/get` endpoint:
an error, or a page of transactions together with the reported
`total_transactions`. -/
inductive PlaidPage where
  | error
  | ok (transactions : List PlaidRawTxn) (total : Int)
  deriving Repr, DecidableEq

/-- The pagination loop of `GET /api/plaid/transactions`
(src/server.js:1616-1667), run with explicit fuel since its termination
is exactly what is in question.  `pages k` is the upstream response to
the `k`-th request.  Loop state: request index `k`, `offset`, and the
accumulated transactions.  Per iteration: an upstream error breaks out of
the loop; otherwise the page is filtered/mapped and appended,
`offset += transactions.length`, the loop breaks on the safety limit
`offset >= 5000`, and continues while `offset < total_transactions`.
`none` means the fuel ran out with the loop still running. -/
def plaidListLoop (pages : Nat → PlaidPage) (excludedAccounts : List String)
    (plaidAccountId institutionName : String) :
    Nat → Nat → Nat → List BankTxn → Option (List BankTxn)
  | 0, _, _, _ => none
  | fuel + 1, k, offset, acc =>
    match pages k with
    | .error => some acc
    | .ok txns total =>
      let acc' := acc ++ plaidFilterMap excludedAccounts plaidAccountId institutionName txns
      let offset' := offset + txns.length
      if 5000 ≤ offset' then some acc'
      else if (offset' : Int) < total then
        plaidListLoop pages excludedAccounts plaidAccountId institutionName fuel (k + 1) offset' acc'
      else some acc'

/-- The loop started from its initial state (`offset = 0`, nothing
accumulated). -/
def plaidListRun (pages : Nat → PlaidPage) (excludedAccounts : List String)
    (plaidAccountId institutionName : String) (fuel : Nat) : Option (List BankTxn) :=
  plaidListLoop pages excludedAccounts plaidAccountId institutionName fuel 0 0 []

/-! ### QuickBooks pagination and per-type aggregation
(src/server.js:285-315, 1102-1115) -/

/-- One upstream response of the QuickBooks query endpoint for one page:
a thrown error, or `result.QueryResponse?.[entityType] || []`. -/
inductive QBPage (α : Type) where
  | error
  | ok (records : List α)
  deriving Repr, DecidableEq

/-- The pagination loop of `fetchAllRecords` (src/server.js:285-315).
`pages k` is the response to the page starting at
`startPosition = 1 + 1000 * k` (the source uses `maxResults = 1000`).
A thrown error is caught: the loop logs and stops, returning what was
accumulated so far.  A short page (fewer than 1000 records) stops the
loop; otherwise `startPosition` advances by 1000 and the loop stops once
it exceeds 10000. -/
def fetchAllRecordsAux (pages : Nat → QBPage α) (k : Nat) (acc : List α) : List α :=
  match pages k with
  | .error => acc
  | .ok records =>
    let acc' := acc ++ records
    if records.length < 1000 then acc'
    else if h : 10000 < 1 + 1000 * (k + 1) then acc'
    else fetchAllRecordsAux pages (k + 1) acc'
termination_by 10 - k
decreasing_by omega

/-- The function `fetchAllRecords` run from its first page. -/
def fetchAllRecords (pages : Nat → QBPage α) : List α := fetchAllRecordsAux pages 0 []

/-- The upstream page streams of the eight entity types fetched by
`fetchFinancialData` (src/server.js:693-723), one independent
`fetchAllRecords` call per type. -/
structure FetchEnv (α : Type) where
  purchase : Nat → QBPage α
  bill : Nat → QBPage α
  journalEntry : Nat → QBPage α
  vendorCredit : Nat → QBPage α
  salesReceipt : Nat → QBPage α
  payment : Nat → QBPage α
  deposit : Nat → QBPage α
  refundReceipt : Nat → QBPage α

/-- The per-type record lists produced by the fetch phase of
`fetchFinancialData`. -/
structure FetchResults (α : Type) where
  purchases : List α
  bills : List α
  journalEntries : List α
  vendorCredits : List α
  salesReceipts : List α
  payments : List α
  deposits : List α
  refundReceipts : List α
  deriving Repr, DecidableEq

/-- The fetch phase of `fetchFinancialData`: each entity type is fetched
by its own `fetchAllRecords` call over its own page stream. -/
def runEntityFetches (env : FetchEnv α) : FetchResults α :=
  { purchases := fetchAllRecords env.purchase
    bills := fetchAllRecords env.bill
    journalEntries := fetchAllRecords env.journalEntry
    vendorCredits := fetchAllRecords env.vendorCredit
    salesReceipts := fetchAllRecords env.salesReceipt
    payments := fetchAllRecords env.payment
    deposits := fetchAllRecords env.deposit
    refundReceipts := fetchAllRecords env.refundReceipt }

/-- The per-type counts of the `debug` diagnostics field of the
`fetchFinancialData` result (src/server.js:1102-1115). -/
structure DebugCounts where
  purchase_count : Nat
  bill_count : Nat
  journal_entry_count : Nat
  salesreceipt_count : Nat
  payment_count : Nat
  deposit_count : Nat
  refund_count : Nat
  vendor_credit_count : Nat
  deriving Repr, DecidableEq

/-- The `debug` field as built from the fetched record lists. -/
def debugOf (r : FetchResults α) : DebugCounts :=
  { purchase_count := r.purchases.length
    bill_count := r.bills.length
    journal_entry_count := r.journalEntries.length
    salesreceipt_count := r.salesReceipts.length
    payment_count := r.payments.length
    deposit_count := r.deposits.length
    refund_count := r.refundReceipts.length
    vendor_credit_count := r.vendorCredits.length }

/-! ### Transaction normalizer (src/server.js:731-942)

Raw QuickBooks records.  Optional references (`AccountRef?.value`,
`EntityRef?.name`, ...) are flattened to strings with `""` standing for
an absent field, which is observationally equivalent under the source's
`||` fallbacks and map lookups. -/

/-- An entry of the `accountMap` lookup built at src/server.js:737-745. -/
structure AccountInfo where
  name : String
  type : String
  subType : String
  fullName : String
  deriving Repr, DecidableEq

/-- The `accountMap[id]?.name || ''` lookup. -/
def acctNameLookup (accountMap : String → Option AccountInfo) (id : String) : String :=
  match accountMap id with
  | some a => a.name
  | none => ""

/-- The `accountMap[id]?.type || ''` lookup. -/
def acctTypeLookup (accountMap : String → Option AccountInfo) (id : String) : String :=
  match accountMap id with
  | some a => a.type
  | none => ""

/-- The `vendorMap[id]` lookup (src/server.js:732-735), `""` when the id
is absent from the map. -/
def vendorLookup (vendorMap : String → Option String) (id : String) : String :=
  match vendorMap id with
  | some v => v
  | none => ""

/-- The canonical transaction built by `fetchFinancialData`.  Fields a
given source type does not set in the source are defaulted here
(`""`, `none`, `false`). -/
structure Txn where
  id : String
  qbId : String
  qbType : String
  date : String
  description : String
  vendor : String
  customer : String
  category : String
  categoryId : Option String
  amount : ℚ
  type : String
  paymentType : String
  source : String
  isPayroll : Bool
  needsReview : Bool
  deriving Repr, DecidableEq

/-- The substring keywords marking a category as uncategorized
(src/server.js:748). -/
def uncategorizedKeywords : List String := ["uncategorized", "ask my accountant", "undeposited"]

/-- The `isUncategorized` predicate (src/server.js:749-753): a missing
name counts as uncategorized, otherwise case-insensitive substring
search for any keyword. -/
def isUncategorized (categoryName : String) : Bool :=
  if categoryName = "" then true
  else uncategorizedKeywords.any (fun kw => strIncludes (jsToLower categoryName) kw)

/-- The `AccountBasedExpenseLineDetail` of a Purchase/Bill line, with
`AccountRef?.value` and `AccountRef?.name` flattened (`""` = absent). -/
structure AcctExpenseDetail where
  acctId : String
  acctName : String
  deriving Repr, DecidableEq

/-- The `ItemBasedExpenseLineDetail` of a Purchase line, with
`ItemRef?.name` flattened (`""` = absent). -/
structure ItemExpenseDetail where
  itemName : String
  deriving Repr, DecidableEq

/-- A Purchase/Bill line item. -/
structure QBLine where
  Description : String
  Amount : ℚ
  AccountBasedExpenseLineDetail : Option AcctExpenseDetail
  ItemBasedExpenseLineDetail : Option ItemExpenseDetail
  deriving Repr, DecidableEq

/-- The intermediate per-line record built by the Purchase and Bill
mappers before the transaction is assembled. -/
structure LineDetail where
  description : String
  category : String
  categoryId : Option String
  amount : ℚ
  deriving Repr, DecidableEq

/-- The Purchase per-line extraction (src/server.js:764-784): an
account-based detail wins over an item-based one, a line with neither is
dropped (`filter(Boolean)`).  For account-based lines the account name
falls back through `AccountRef?.name || accountMap[acctId]?.name || ''`. -/
def purchaseLineDetail (accountMap : String → Option AccountInfo) (line : QBLine) :
    Option LineDetail :=
  match line.AccountBasedExpenseLineDetail with
  | some d =>
    let acctName := jsOr d.acctName (jsOr (acctNameLookup accountMap d.acctId) "")
    some { description := jsOr line.Description acctName
           category := acctName
           categoryId := some d.acctId
           amount := line.Amount }
  | none =>
    match line.ItemBasedExpenseLineDetail with
    | some i =>
      some { description := jsOr line.Description (jsOr i.itemName "")
             category := "Items"
             categoryId := none
             amount := line.Amount }
    | none => none

/-- A raw Purchase record (src/server.js:759-762), with
`EntityRef?.value/name` flattened. -/
structure PurchaseRecord where
  Id : String
  TxnDate : String
  TotalAmt : ℚ
  EntityRefValue : String
  EntityRefName : String
  PrivateNote : String
  PaymentType : String
  Line : List QBLine
  deriving Repr, DecidableEq

/-- The Purchase normalizer (src/server.js:759-830): one expense
transaction per qualifying line with `amount = -abs(line.amount)`; a
Purchase with no qualifying line falls back to a single whole-record
transaction from `TotalAmt`, always flagged for review. -/
def purchaseTxns (accountMap : String → Option AccountInfo)
    (vendorMap : String → Option String) (p : PurchaseRecord) : List Txn :=
  let vendorName := jsOr p.EntityRefName (jsOr (vendorLookup vendorMap p.EntityRefValue) "")
  let memo := jsOr p.PrivateNote ""
  let paymentType := jsOr p.PaymentType "Unknown"
  let lineDetails := p.Line.filterMap (purchaseLineDetail accountMap)
  if 0 < lineDetails.length then
    lineDetails.enum.map (fun il =>
      { id := "purchase-" ++ p.Id ++ "-" ++ toString il.1
        qbId := p.Id
        qbType := "Purchase"
        date := p.TxnDate
        description := jsOr il.2.description (jsOr vendorName (jsOr memo "Purchase"))
        vendor := vendorName
        customer := ""
        category := jsOr il.2.category "Uncategorized"
        categoryId := il.2.categoryId
        amount := -|il.2.amount|
        type := "expense"
        paymentType := paymentType
        source := "Purchase"
        isPayroll := false
        needsReview := isUncategorized il.2.category })
  else
    [{ id := "purchase-" ++ p.Id
       qbId := p.Id
       qbType := "Purchase"
       date := p.TxnDate
       description := jsOr vendorName (jsOr memo "Purchase")
       vendor := vendorName
       customer := ""
       category := "Uncategorized"
       categoryId := none
       amount := -|p.TotalAmt|
       type := "expense"
       paymentType := paymentType
       source := "Purchase"
       isPayroll := false
       needsReview := true }]

/-- The Bill per-line extraction (src/server.js:837-849): only
account-based details qualify (item-based Bill lines are dropped), and
the account name falls back through `AccountRef?.name || ''` only — no
`accountMap` lookup. -/
def billLineDetail (line : QBLine) : Option LineDetail :=
  match line.AccountBasedExpenseLineDetail with
  | some d =>
    let acctName := jsOr d.acctName ""
    some { description := jsOr line.Description acctName
           category := acctName
           categoryId := some d.acctId
           amount := line.Amount }
  | none => none

/-- A raw Bill record (src/server.js:833-835), with `VendorRef?.value/name`
flattened. -/
structure BillRecord where
  Id : String
  TxnDate : String
  VendorRefValue : String
  VendorRefName : String
  PrivateNote : String
  Line : List QBLine
  deriving Repr, DecidableEq

/-- The Bill normalizer (src/server.js:833-872): one expense transaction
per account-based line; a Bill with no such line emits nothing (there is
no whole-record fallback). -/
def billTxns (vendorMap : String → Option String) (b : BillRecord) : List Txn :=
  let vendorName := jsOr b.VendorRefName (jsOr (vendorLookup vendorMap b.VendorRefValue) "")
  let memo := jsOr b.PrivateNote ""
  let lineDetails := b.Line.filterMap billLineDetail
  if 0 < lineDetails.length then
    lineDetails.enum.map (fun il =>
      { id := "bill-" ++ b.Id ++ "-" ++ toString il.1
        qbId := b.Id
        qbType := "Bill"
        date := b.TxnDate
        description := jsOr il.2.description (jsOr vendorName (jsOr memo "Bill"))
        vendor := vendorName
        customer := ""
        category := jsOr il.2.category "Uncategorized"
        categoryId := il.2.categoryId
        amount := -|il.2.amount|
        type := "expense"
        paymentType := ""
        source := "Bill"
        isPayroll := false
        needsReview := isUncategorized il.2.category })
  else []

/-- The `JournalEntryLineDetail` of a journal-entry line, with
`AccountRef?.value/name` flattened. -/
structure JEDetail where
  acctRefValue : String
  acctRefName : String
  PostingType : String
  deriving Repr, DecidableEq

/-- A journal-entry line.  `Amount` models `line.Amount || 0`, so an
absent amount is `0`. -/
structure JELine where
  Description : String
  Amount : ℚ
  JournalEntryLineDetail : Option JEDetail
  deriving Repr, DecidableEq

/-- A raw JournalEntry record (src/server.js:875-877). -/
structure JERecord where
  Id : String
  TxnDate : String
  PrivateNote : String
  DocNumber : String
  Line : List JELine
  deriving Repr, DecidableEq

/-- The account types whose journal-entry lines are excluded entirely
(src/server.js:907). -/
def balanceSheetSkipTypes : List String :=
  ["Other Current Liability", "Long Term Liability", "Bank", "Other Current Asset", "Fixed Asset"]

/-- The sign/kind classification of a journal-entry line
(src/server.js:886-916), applied after the zero-amount skip:
expense-like account types post Debit → negative / Credit → positive
expense; income-like types post Credit → positive / Debit → negative
income; the balance-sheet types are skipped; any other type keeps a
Debit as a negative expense and skips a Credit. -/
def jeClassify (acctType postingType : String) (amount : ℚ) : Option (String × ℚ) :=
  if acctType = "Expense" ∨ acctType = "Cost of Goods Sold" ∨ acctType = "Other Expense" then
    if postingType = "Debit" then some ("expense", -|amount|)
    else some ("expense", |amount|)
  else if acctType = "Income" ∨ acctType = "Other Income" then
    if postingType = "Credit" then some ("income", |amount|)
    else some ("income", -|amount|)
  else if acctType ∈ balanceSheetSkipTypes then none
  else if postingType = "Debit" then some ("expense", -|amount|)
  else none

/-- The payroll tag of a journal-entry line (src/server.js:918-924): the
account name is searched for "payroll", "wage", "salary" and "paychex";
the record memo only for "payroll" and "paychex". -/
def jePayrollTag (acctName memo : String) : Bool :=
  strIncludes (jsToLower acctName) "payroll" ||
  strIncludes (jsToLower acctName) "wage" ||
  strIncludes (jsToLower acctName) "salary" ||
  strIncludes (jsToLower acctName) "paychex" ||
  strIncludes (jsToLower memo) "payroll" ||
  strIncludes (jsToLower memo) "paychex"

/-- The transaction emitted for one journal-entry line
(src/server.js:878-940), `none` when the line is skipped: no
`JournalEntryLineDetail`, a zero amount, or a skipping classification.
`idx` is the line's index in `je.Line` (used for the id even when other
lines are skipped). -/
def jeLineTxn (accountMap : String → Option AccountInfo) (je : JERecord)
    (idx : Nat) (line : JELine) : Option Txn :=
  match line.JournalEntryLineDetail with
  | none => none
  | some d =>
    let memo := jsOr je.PrivateNote (jsOr je.DocNumber "")
    let acctName := jsOr d.acctRefName (jsOr (acctNameLookup accountMap d.acctRefValue) "Journal Entry")
    let acctType := acctTypeLookup accountMap d.acctRefValue
    let amount := line.Amount
    if amount = 0 then none
    else
      match jeClassify acctType d.PostingType amount with
      | none => none
      | some tc =>
        let isPayroll := jePayrollTag acctName memo
        some { id := "journal-" ++ je.Id ++ "-" ++ toString idx
               qbId := je.Id
               qbType := "JournalEntry"
               date := je.TxnDate
               description := jsOr line.Description (jsOr memo acctName)
               vendor := ""
               customer := ""
               category := if isPayroll then "Payroll Expenses" else acctName
               categoryId := none
               amount := tc.2
               type := tc.1
               paymentType := ""
               source := "JournalEntry"
               isPayroll := isPayroll
               needsReview := false }

/-- The JournalEntry normalizer (src/server.js:875-942): one transaction
per non-skipped line. -/
def journalEntryTxns (accountMap : String → Option AccountInfo) (je : JERecord) : List Txn :=
  je.Line.enum.filterMap (fun il => jeLineTxn accountMap je il.1 il.2)

/-! ### Claim-side definitions

These follow the words of the spec/claims, to be compared against the
source-derived definitions above. -/

/-- Modelled from the claim wording of C5: a line qualifies when it
carries an account-based or item-based expense detail. -/
def specQualifyingLine (line : QBLine) : Bool :=
  line.AccountBasedExpenseLineDetail.isSome || line.ItemBasedExpenseLineDetail.isSome

/-- The code-side qualifying test for Bill lines: only account-based
details contribute. -/
def billQualifyingLine (line : QBLine) : Bool :=
  line.AccountBasedExpenseLineDetail.isSome

/-- Modelled from the claim wording of C6: the balance-sheet account
types (Bank, asset and liability types) of the QuickBooks account-type
taxonomy. -/
def claimBalanceSheetTypes : List String :=
  ["Bank", "Accounts Receivable", "Other Current Asset", "Fixed Asset", "Other Asset",
   "Accounts Payable", "Credit Card", "Other Current Liability", "Long Term Liability"]

/-- Modelled from the claim wording of C7: the account name or the
record memo contains (case-insensitively) any of "payroll", "wage",
"salary", "paychex". -/
def claimPayrollCond (acctName memo : String) : Bool :=
  ["payroll", "wage", "salary", "paychex"].any (fun kw =>
    strIncludes (jsToLower acctName) kw || strIncludes (jsToLower memo) kw)

/-! ### Concrete inputs used by counterexamples and witnesses -/

/-- A Plaid debit: money leaving the account, reported with a positive
amount per the upstream convention. -/
def exPlaidDebit : PlaidRawTxn :=
  { transaction_id := "txn-1"
    account_id := "acc-1"
    date := "2025-06-01"
    name := "OFFICE DEPOT 123"
    merchant_name := "Office Depot"
    amount := 50
    pfcPrimary := "GENERAL_MERCHANDISE"
    pfcDetailed := ""
    category := []
    pending := false }

/-- A rule store already holding a well-used rule for
("netflix", "contains"). -/
def exRuleStoreC4 : List LearnedRule :=
  [{ id := "rule-0"
     pattern := "Netflix"
     patternType := "contains"
     categoryId := "17"
     categoryName := "Software"
     confidence := some 1
     timesUsed := 5
     createdAt := "2025-01-01T00:00:00Z"
     updatedAt := "" }]

/-- A high-confidence stored rule matching Netflix descriptions. -/
def exRuleNetflix : LearnedRule :=
  { id := "rule-7"
    pattern := "NETFLIX"
    patternType := "contains"
    categoryId := "31"
    categoryName := "Subscriptions"
    confidence := some 1
    timesUsed := 3
    createdAt := "2025-01-02T00:00:00Z"
    updatedAt := "" }

/-- A stored rule whose `confidence` field is `0`. -/
def exRuleZeroConf : LearnedRule :=
  { id := "rule-9"
    pattern := "uber"
    patternType := "contains"
    categoryId := "12"
    categoryName := "Travel"
    confidence := some 0
    timesUsed := 1
    createdAt := "2025-01-03T00:00:00Z"
    updatedAt := "" }

/-- A Bill whose only line carries an item-based expense detail. -/
def exBillC5 : BillRecord :=
  { Id := "77"
    TxnDate := "2025-03-01"
    VendorRefValue := ""
    VendorRefName := "Acme Supplies"
    PrivateNote := ""
    Line := [{ Description := "widgets"
               Amount := 50
               AccountBasedExpenseLineDetail := none
               ItemBasedExpenseLineDetail := some { itemName := "Widget" } }] }

/-- A Purchase whose only (account-based) line has a zero amount. -/
def exPurchaseC5 : PurchaseRecord :=
  { Id := "42"
    TxnDate := "2025-03-02"
    TotalAmt := 0
    EntityRefValue := ""
    EntityRefName := "Acme Supplies"
    PrivateNote := ""
    PaymentType := "Cash"
    Line := [{ Description := "promo credit"
               Amount := 0
               AccountBasedExpenseLineDetail := some { acctId := "9", acctName := "Office Supplies" }
               ItemBasedExpenseLineDetail := none }] }

/-- A Purchase with one ordinary account-based expense line. -/
def exPurchaseW : PurchaseRecord :=
  { Id := "43"
    TxnDate := "2025-03-03"
    TotalAmt := 50
    EntityRefValue := ""
    EntityRefName := "Acme Supplies"
    PrivateNote := ""
    PaymentType := "Cash"
    Line := [{ Description := "paper"
               Amount := 50
               AccountBasedExpenseLineDetail := some { acctId := "9", acctName := "Office Supplies" }
               ItemBasedExpenseLineDetail := none }] }

/-- A Bill with one ordinary account-based expense line. -/
def exBillW : BillRecord :=
  { Id := "78"
    TxnDate := "2025-03-04"
    VendorRefValue := ""
    VendorRefName := "Acme Supplies"
    PrivateNote := ""
    Line := [{ Description := "hosting"
               Amount := 30
               AccountBasedExpenseLineDetail := some { acctId := "14", acctName := "IT Services" }
               ItemBasedExpenseLineDetail := none }] }

/-- An account map holding a Credit Card (liability) account and a Bank
account. -/
def exAccountMapC6 : String → Option AccountInfo := fun id =>
  if id = "cc1" then
    some { name := "Chase Visa", type := "Credit Card", subType := "CreditCard", fullName := "Chase Visa" }
  else if id = "b1" then
    some { name := "Operating Checking", type := "Bank", subType := "Checking", fullName := "Operating Checking" }
  else none

/-- A JournalEntry with a single Debit line posted to the Credit Card
account of `exAccountMapC6`. -/
def exJEC6 : JERecord :=
  { Id := "900"
    TxnDate := "2025-02-02"
    PrivateNote := ""
    DocNumber := ""
    Line := [{ Description := "card payment"
               Amount := 100
               JournalEntryLineDetail := some { acctRefValue := "cc1", acctRefName := "", PostingType := "Debit" } }] }

/-- A JournalEntry line posted to the Bank account of `exAccountMapC6`. -/
def exJELineBank : JELine :=
  { Description := "transfer"
    Amount := 40
    JournalEntryLineDetail := some { acctRefValue := "b1", acctRefName := "", PostingType := "Debit" } }

/-- An account map holding a plain expense account. -/
def exAccountMapC7 : String → Option AccountInfo := fun id =>
  if id = "m1" then
    some { name := "Miscellaneous", type := "Expense", subType := "", fullName := "Miscellaneous" }
  else none

/-- A JournalEntry whose memo mentions "salary" while the account name
contains no payroll keyword. -/
def exJEC7 : JERecord :=
  { Id := "901"
    TxnDate := "2025-02-03"
    PrivateNote := "june salary"
    DocNumber := ""
    Line := [{ Description := ""
               Amount := 100
               JournalEntryLineDetail := some { acctRefValue := "m1", acctRefName := "", PostingType := "Debit" } }] }

/-- A QuickBooks page stream: the first page is full (1000 records), the
second request throws. -/
def exC8Pages : Nat → QBPage Unit :=
  fun k => if k = 0 then .ok (List.replicate 1000 ()) else .error

/-- A QuickBooks page stream whose every request throws. -/
def exC8AllErr : Nat → QBPage Unit := fun _ => .error

/-- A Plaid page stream reporting `total_transactions = 1` while every
page is empty: the list handler's offset never advances. -/
def exC9Pages : Nat → PlaidPage := fun _ => .ok [] 1

/-! ## Theorems -/

/-- Helper: the length of a `filterMap` is the count of elements on which
the function succeeds. -/
theorem length_filterMap_countP (f : α → Option β) (l : List α) :
    (l.filterMap f).length = l.countP (fun a => (f a).isSome) := by
  induction l with
  | nil => rfl
  | cons x xs ih =>
    cases h : f x <;> simp [List.filterMap_cons, List.countP_cons, h, ih]

/-- Helper: on the adversarial page stream `exC9Pages` the listing loop
consumes all its fuel without finishing, from any request index and
accumulator, because the offset never advances past `0`. -/
theorem plaidListLoop_exC9_eq_none (fuel : Nat) :
    ∀ (k : Nat) (acc : List BankTxn),
      plaidListLoop exC9Pages [] "p" "i" fuel k 0 acc = none := by
  induction fuel with
  | zero => intro k acc; rfl
  | succ n ih =>
    intro k acc
    have h := ih (k + 1) acc
    simp only [plaidListLoop, exC9Pages, plaidFilterMap, List.filter_nil, List.map_nil,
      List.append_nil, List.length_nil, Nat.add_zero]
    norm_num
    exact h

/-- C9: the claim that every pagination loop terminates for every
sequence of upstream responses is violated by the
`GET /api/plaid/transactions` loop: when the upstream reports
`total_transactions = 1` but returns empty pages, the offset never
advances, the `offset >= 5000` safety limit never fires, and no amount
of fuel makes the loop finish: the run is `none` (still looping) for
every fuel bound. -/
theorem C9_plaid_list_loop_diverges :
    ∀ fuel : Nat, plaidListRun exC9Pages [] "p" "i" fuel = none :=
  fun fuel => plaidListLoop_exC9_eq_none fuel 0 []

/-- C1 as stated is false: the Plaid sync/list mapping stores the
upstream amount unchanged, so a money-out transaction (upstream positive
amount, here `50`) is stored with a positive amount, not a strictly
negative one. -/
theorem C1_counterexample :
    plaidFilterMap [] "plaid-1" "Wells Fargo" [exPlaidDebit]
      = [mapPlaidTxn "plaid-1" "Wells Fargo" exPlaidDebit]
    ∧ 0 < exPlaidDebit.amount
    ∧ ¬ (mapPlaidTxn "plaid-1" "Wells Fargo" exPlaidDebit).amount < 0 := by
  refine ⟨rfl, by decide, by decide⟩

/-- C1 amended: every transaction emitted by the Plaid sync/list mapping
comes from a non-excluded upstream item, keeps the upstream amount (and
hence the upstream sign convention, positive = money out) unchanged, and
derives its kind from that sign: `expense` iff the upstream amount is
positive, `income` otherwise. -/
theorem C1_amended_sign_preserved (excluded : List String)
    (plaidAccountId institutionName : String) (batch : List PlaidRawTxn) (tx : BankTxn)
    (htx : tx ∈ plaidFilterMap excluded plaidAccountId institutionName batch) :
    ∃ t ∈ batch, excluded.contains t.account_id = false
      ∧ tx = mapPlaidTxn plaidAccountId institutionName t
      ∧ tx.amount = t.amount
      ∧ (tx.type = "expense" ↔ 0 < t.amount)
      ∧ (tx.type = "income" ↔ ¬ 0 < t.amount) := by
  rcases List.mem_map.mp htx with ⟨t, htf, rfl⟩
  rcases List.mem_filter.mp htf with ⟨htb, hex⟩
  refine ⟨t, htb, by simpa using hex, rfl, rfl, ?_, ?_⟩ <;>
    by_cases h : (0 : ℚ) < t.amount <;>
      simp [mapPlaidTxn, h, gt_iff_lt]

/-- Witness for C1 amended, at the concrete debit `exPlaidDebit`. -/
theorem C1_amended_witness :
    ∃ t ∈ [exPlaidDebit], List.contains [] t.account_id = false
      ∧ mapPlaidTxn "p" "i" exPlaidDebit = mapPlaidTxn "p" "i" t
      ∧ (mapPlaidTxn "p" "i" exPlaidDebit).amount = t.amount
      ∧ ((mapPlaidTxn "p" "i" exPlaidDebit).type = "expense" ↔ 0 < t.amount)
      ∧ ((mapPlaidTxn "p" "i" exPlaidDebit).type = "income" ↔ ¬ 0 < t.amount) :=
  C1_amended_sign_preserved [] "p" "i" [exPlaidDebit]
    (mapPlaidTxn "p" "i" exPlaidDebit) (by decide)

/-- C3 as stated is false: when the rule-file write fails, `saveRules`
swallows the error, and both the learn-rule and the delete handler still
answer HTTP 200 with `success: true`. -/
theorem C3_counterexample :
    (learnRuleHandler "t0" "netflix" "contains" "17" "Software" [] WriteResult.ioError).2.success
      = true
    ∧ writeRulesFile WriteResult.ioError = Except.error "EIO: write failed"
    ∧ (deleteRuleHandler "rule-x" exRuleStoreC4 WriteResult.ioError).2.success = true :=
  ⟨rfl, rfl, rfl⟩

/-- C3 amended: the teach and delete calls report success regardless of
whether the rule set was durably written — a persistence failure is
caught and logged inside `saveRules` and never reaches the caller. -/
theorem C3_amended_success_regardless
    (now pattern patternType categoryId categoryName id : String)
    (rules : List LearnedRule) (w : WriteResult) :
    (learnRuleHandler now pattern patternType categoryId categoryName rules w).2
        = { status := 200, success := true }
    ∧ (deleteRuleHandler id rules w).2 = { status := 200, success := true } := by
  cases w <;> exact ⟨rfl, rfl⟩

/-- C8 as stated is false: a fetch failure on a later page does not make
`fetchAllRecords` return an empty result set for that type — the stream
`exC8Pages` delivers a full first page of 1000 records and then throws,
and the loop returns the 1000 already-fetched records. -/
theorem C8_counterexample :
    exC8Pages 1 = QBPage.error
    ∧ fetchAllRecords exC8Pages = List.replicate 1000 ()
    ∧ fetchAllRecords exC8Pages ≠ [] := by
  have h : fetchAllRecords exC8Pages = List.replicate 1000 () := by
    rw [fetchAllRecords, fetchAllRecordsAux]
    simp only [exC8Pages, if_pos rfl, List.length_replicate, List.nil_append]
    norm_num
    rw [fetchAllRecordsAux]
    have h1 : exC8Pages 1 = QBPage.error := rfl
    rw [h1]
  refine ⟨rfl, h, ?_⟩
  rw [h]
  intro hc
  have hlen := congrArg List.length hc
  rw [List.length_replicate, List.length_nil] at hlen
  exact absurd hlen (by norm_num)

/-- C8 amended: the error of a failed page is contained inside
`fetchAllRecords` — the loop stops and returns the records accumulated
from the pages before the failure (in particular, the empty list when
the very first page fails); the other entity types of an aggregation run
are fetched from their own streams and are unaffected, and the run's
`debug` field reports the per-type record counts. -/
theorem C8_amended_degraded_continue :
    (∀ (α : Type) (pages : Nat → QBPage α) (k : Nat) (acc : List α),
        pages k = QBPage.error → fetchAllRecordsAux pages k acc = acc)
    ∧ (∀ (α : Type) (pages : Nat → QBPage α),
        pages 0 = QBPage.error → fetchAllRecords pages = [])
    ∧ (∀ (α : Type) (env : FetchEnv α) (p' : Nat → QBPage α),
        (runEntityFetches { env with purchase := p' }).bills = (runEntityFetches env).bills
        ∧ (runEntityFetches { env with purchase := p' }).journalEntries
            = (runEntityFetches env).journalEntries
        ∧ (runEntityFetches { env with purchase := p' }).vendorCredits
            = (runEntityFetches env).vendorCredits
        ∧ (runEntityFetches { env with purchase := p' }).salesReceipts
            = (runEntityFetches env).salesReceipts
        ∧ (runEntityFetches { env with purchase := p' }).payments
            = (runEntityFetches env).payments
        ∧ (runEntityFetches { env with purchase := p' }).deposits
            = (runEntityFetches env).deposits
        ∧ (runEntityFetches { env with purchase := p' }).refundReceipts
            = (runEntityFetches env).refundReceipts)
    ∧ (∀ (α : Type) (env : FetchEnv α),
        (debugOf (runEntityFetches env)).purchase_count = (fetchAllRecords env.purchase).length
        ∧ (debugOf (runEntityFetches env)).bill_count = (fetchAllRecords env.bill).length) := by
  refine ⟨?_, ?_, ?_, ?_⟩
  · intro α pages k acc h
    rw [fetchAllRecordsAux, h]
  · intro α pages h
    rw [fetchAllRecords, fetchAllRecordsAux, h]
  · intro α env p'
    exact ⟨rfl, rfl, rfl, rfl, rfl, rfl, rfl⟩
  · intro α env
    exact ⟨rfl, rfl⟩

/-- Witness for C8 amended: an all-failing stream yields the accumulator
from any page and the empty list from the start. -/
theorem C8_amended_witness :
    fetchAllRecordsAux exC8AllErr 3 [()] = [()]
    ∧ fetchAllRecords exC8AllErr = [] :=
  ⟨C8_amended_degraded_continue.1 Unit exC8AllErr 3 [()] rfl,
   C8_amended_degraded_continue.2.1 Unit exC8AllErr rfl⟩

/-- C2: the categorize operation returns the scanned rule match
immediately with `autoApproved = true` and without invoking the
classifier when its (defaulted) confidence is at least 0.95; otherwise
the final suggestion is the classifier result when present, else the
lower-confidence rule match, else `none` — and in every fallback case
`autoApproved = false` regardless of the classifier's reported
confidence (the classifier result is universally quantified here). -/
theorem C2_resolver_policy (rules : List LearnedRule) (description vendorName : String)
    (classifier : Option Suggestion) :
    (∀ r, firstMatch (searchKey description vendorName) rules = some r →
      ((95 / 100 : ℚ) ≤ confOrOne r.confidence →
        categorize rules description vendorName classifier
          = { suggestion := some (suggestionOfRule r), autoApproved := true,
              classifierInvoked := false })
      ∧ (confOrOne r.confidence < 95 / 100 →
        categorize rules description vendorName classifier
          = { suggestion := classifier.orElse fun _ => some (suggestionOfRule r),
              autoApproved := false, classifierInvoked := true }))
    ∧ (firstMatch (searchKey description vendorName) rules = none →
      categorize rules description vendorName classifier
        = { suggestion := classifier, autoApproved := false, classifierInvoked := true }) := by
  constructor
  · intro r hr
    have hf : findMatchingRule rules description vendorName = some (suggestionOfRule r) := by
      rw [findMatchingRule, hr]; rfl
    constructor
    · intro hc
      have hc' : (suggestionOfRule r).confidence ≥ 95 / 100 := hc
      unfold categorize
      rw [hf]
      exact if_pos hc'
    · intro hc
      have hc' : ¬ (suggestionOfRule r).confidence ≥ 95 / 100 := not_le.mpr hc
      unfold categorize
      rw [hf]
      exact if_neg hc'
  · intro h
    unfold categorize
    rw [findMatchingRule, h]
    rfl

/-- Witness for C2, at a concrete high-confidence contains-rule. -/
theorem C2_witness :
    categorize [exRuleNetflix] "Netflix.com subscription" "Netflix" none
      = { suggestion := some (suggestionOfRule exRuleNetflix), autoApproved := true,
          classifierInvoked := false } :=
  ((C2_resolver_policy [exRuleNetflix] "Netflix.com subscription" "Netflix" none).1
      exRuleNetflix (by decide)).1 (by norm_num [confOrOne, exRuleNetflix])

/-- C10: a stored rule whose confidence field is absent/null (`none`) or
`0` is defaulted to `1.0` by `findMatchingRule`, so on a successful match
the categorize operation auto-approves the rule's suggestion and skips
the classifier. -/
theorem C10_missing_confidence_autoapproved (rules : List LearnedRule)
    (description vendorName : String) (classifier : Option Suggestion) (r : LearnedRule)
    (hr : firstMatch (searchKey description vendorName) rules = some r)
    (hc : r.confidence = none ∨ r.confidence = some 0) :
    findMatchingRule rules description vendorName = some (suggestionOfRule r)
    ∧ (suggestionOfRule r).confidence = 1
    ∧ categorize rules description vendorName classifier
        = { suggestion := some (suggestionOfRule r), autoApproved := true,
            classifierInvoked := false } := by
  have h1 : confOrOne r.confidence = 1 := by
    rcases hc with h | h <;> simp [confOrOne, h]
  have hf : findMatchingRule rules description vendorName = some (suggestionOfRule r) := by
    rw [findMatchingRule, hr]; rfl
  have hge : (95 / 100 : ℚ) ≤ (suggestionOfRule r).confidence := by
    show (95 / 100 : ℚ) ≤ confOrOne r.confidence
    rw [h1]; norm_num
  have hge' : (suggestionOfRule r).confidence ≥ 95 / 100 := hge
  refine ⟨hf, h1, ?_⟩
  unfold categorize
  rw [hf]
  exact if_pos hge'

/-- Witness for C10, at a concrete zero-confidence rule. -/
theorem C10_witness :
    findMatchingRule [exRuleZeroConf] "UBER TRIP HELP.UBER.COM" ""
        = some (suggestionOfRule exRuleZeroConf)
    ∧ (suggestionOfRule exRuleZeroConf).confidence = 1
    ∧ categorize [exRuleZeroConf] "UBER TRIP HELP.UBER.COM" "" none
        = { suggestion := some (suggestionOfRule exRuleZeroConf), autoApproved := true,
            classifierInvoked := false } :=
  C10_missing_confidence_autoapproved [exRuleZeroConf] "UBER TRIP HELP.UBER.COM" "" none
    exRuleZeroConf (by decide) (Or.inr (by decide))

/-- Helper: `updateFirst` returns `none` exactly when no element
satisfies the predicate. -/
theorem updateFirst_eq_none_iff (p : α → Bool) (f : α → α) (l : List α) :
    updateFirst p f l = none ↔ ∀ x ∈ l, p x = false := by
  induction l with
  | nil => simp [updateFirst]
  | cons x xs ih =>
    by_cases h : p x <;> simp [updateFirst, h, ih]

/-- Helper: when nothing in `l` matches and `y` does, `updateFirst` on
`l ++ [y]` updates exactly `y`. -/
theorem updateFirst_append_of_none (p : α → Bool) (f : α → α) (l : List α) (y : α)
    (hl : ∀ x ∈ l, p x = false) (hy : p y = true) :
    updateFirst p f (l ++ [y]) = some (l ++ [f y]) := by
  induction l with
  | nil => simp [updateFirst, hy]
  | cons x xs ih =>
    have hx : p x = false := hl x (by simp)
    have hxs : ∀ z ∈ xs, p z = false := fun z hz => hl z (by simp [hz])
    simp [updateFirst, hx, ih hxs]

/-- Helper: an `updateFirst` whose update function preserves `g`
preserves the `g`-image of the list. -/
theorem updateFirst_some_map {γ : Type} (g : α → γ) (p : α → Bool) (f : α → α)
    (hgf : ∀ x, p x = true → g (f x) = g x) :
    ∀ (l l' : List α), updateFirst p f l = some l' → l'.map g = l.map g := by
  intro l
  induction l with
  | nil => intro l' h; simp [updateFirst] at h
  | cons x xs ih =>
    intro l' h
    by_cases hx : p x
    · simp only [updateFirst, if_pos hx, Option.some.injEq] at h
      subst h
      simp [hgf x hx]
    · simp only [updateFirst, if_neg hx, Option.map_eq_some'] at h
      rcases h with ⟨u, hu, rfl⟩
      simp [ih u hu]

/-- Helper: the learn-rule dedup test holds exactly on rules whose key is
the (lower-cased pattern, patternType) pair being taught. -/
theorem teachMatches_eq_true_iff (pattern patternType : String) (r : LearnedRule) :
    teachMatches pattern patternType r = true
      ↔ ruleKey r = (jsToLower pattern, patternType) := by
  simp [teachMatches, ruleKey, Prod.ext_iff, Bool.and_eq_true, decide_eq_true_eq]

/-- C4 as stated is false: from a starting rule store that already holds
a ("netflix", "contains") rule with `timesUsed = 5`, teaching the same
pattern twice leaves that rule with `timesUsed = 7`, not `2`. -/
theorem C4_counterexample :
    ((teach "t2" "Netflix" "contains" "c2" "Streaming"
        (teach "t1" "Netflix" "contains" "c1" "Software" exRuleStoreC4)).filter
      (teachMatches "Netflix" "contains")).map LearnedRule.timesUsed = [7]
    ∧ ((teach "t2" "Netflix" "contains" "c2" "Streaming"
        (teach "t1" "Netflix" "contains" "c1" "Software" exRuleStoreC4)).filter
      (teachMatches "Netflix" "contains")).map LearnedRule.timesUsed ≠ [2] := by
  exact ⟨by decide, by decide⟩

/-- C4 amended: every teach call preserves the uniqueness invariant (at
most one rule per (lower-cased pattern, patternType) key); and starting
from a store holding no rule for the taught key, `teach(p,t,c1)` followed
by `teach(p,t,c2)` leaves exactly one rule matching `(p,t)`
case-insensitively, with category `c2` and `timesUsed = 2`.  (When the
store already holds such a rule, its existing `timesUsed` is bumped
twice instead.) -/
theorem C4_amended_teach_dedup :
    (∀ (now pattern patternType categoryId categoryName : String) (rules : List LearnedRule),
        uniqueRuleKeys rules →
        uniqueRuleKeys (teach now pattern patternType categoryId categoryName rules))
    ∧ (∀ (now1 now2 pattern patternType cid1 cname1 cid2 cname2 : String)
          (rules : List LearnedRule),
        (∀ r ∈ rules, teachMatches pattern patternType r = false) →
        ∃ u, (teach now2 pattern patternType cid2 cname2
                (teach now1 pattern patternType cid1 cname1 rules)).filter
              (teachMatches pattern patternType) = [u]
          ∧ u.pattern = pattern ∧ u.patternType = patternType
          ∧ u.categoryId = cid2 ∧ u.categoryName = cname2 ∧ u.timesUsed = 2) := by
  constructor
  · intro now pat pt cid cname rules hu
    unfold teach
    cases h : updateFirst (teachMatches pat pt) (bumpRule cid cname now) rules with
    | some rules' =>
      have hmap := updateFirst_some_map ruleKey (teachMatches pat pt)
        (bumpRule cid cname now) (fun x _ => rfl) rules rules' h
      unfold uniqueRuleKeys at hu ⊢
      rw [hmap]
      exact hu
    | none =>
      have hall := (updateFirst_eq_none_iff _ _ _).mp h
      unfold uniqueRuleKeys at hu ⊢
      rw [List.map_append, List.nodup_append]
      refine ⟨hu, List.nodup_singleton _, ?_⟩
      intro a ha hb
      have hafresh : a = ruleKey (freshRule now pat pt cid cname) := List.mem_singleton.mp hb
      rcases List.mem_map.mp ha with ⟨r, hr, hkey⟩
      have : teachMatches pat pt r = true := by
        rw [teachMatches_eq_true_iff]
        rw [hkey, hafresh]
        rfl
      rw [hall r hr] at this
      exact Bool.false_ne_true this
  · intro now1 now2 pat pt cid1 cn1 cid2 cn2 rules hall
    have h1 : updateFirst (teachMatches pat pt) (bumpRule cid1 cn1 now1) rules = none :=
      (updateFirst_eq_none_iff _ _ _).mpr hall
    have t1 : teach now1 pat pt cid1 cn1 rules
        = rules ++ [freshRule now1 pat pt cid1 cn1] := by
      unfold teach; rw [h1]
    have hfresh : teachMatches pat pt (freshRule now1 pat pt cid1 cn1) = true := by
      simp [teachMatches, freshRule]
    have h2 : updateFirst (teachMatches pat pt) (bumpRule cid2 cn2 now2)
        (rules ++ [freshRule now1 pat pt cid1 cn1])
        = some (rules ++ [bumpRule cid2 cn2 now2 (freshRule now1 pat pt cid1 cn1)]) :=
      updateFirst_append_of_none _ _ _ _ hall hfresh
    have t2 : teach now2 pat pt cid2 cn2 (rules ++ [freshRule now1 pat pt cid1 cn1])
        = rules ++ [bumpRule cid2 cn2 now2 (freshRule now1 pat pt cid1 cn1)] := by
      unfold teach; rw [h2]
    have hb : teachMatches pat pt (bumpRule cid2 cn2 now2 (freshRule now1 pat pt cid1 cn1))
        = true := hfresh
    have hfil : rules.filter (teachMatches pat pt) = [] :=
      List.filter_eq_nil_iff.mpr fun a ha => by simp [hall a ha]
    refine ⟨bumpRule cid2 cn2 now2 (freshRule now1 pat pt cid1 cn1), ?_, rfl, rfl, rfl, rfl, rfl⟩
    rw [t1, t2, List.filter_append, hfil, List.nil_append, List.filter_cons, if_pos hb]
    rfl

/-- Witness for C4 amended, teaching "Spotify" twice over a store that
holds only an unrelated Netflix rule. -/
theorem C4_amended_witness :
    uniqueRuleKeys (teach "t0" "Spotify" "contains" "c9" "Music" exRuleStoreC4)
    ∧ ∃ u, (teach "t2" "Spotify" "contains" "c2" "Music Services"
            (teach "t1" "Spotify" "contains" "c1" "Music" exRuleStoreC4)).filter
          (teachMatches "Spotify" "contains") = [u]
        ∧ u.pattern = "Spotify" ∧ u.patternType = "contains"
        ∧ u.categoryId = "c2" ∧ u.categoryName = "Music Services" ∧ u.timesUsed = 2 :=
  ⟨C4_amended_teach_dedup.1 "t0" "Spotify" "contains" "c9" "Music" exRuleStoreC4
     (by unfold uniqueRuleKeys; decide),
   C4_amended_teach_dedup.2 "t1" "t2" "Spotify" "contains" "c1" "Music" "c2" "Music Services"
     exRuleStoreC4 (by decide)⟩

/-- Helper: an element of `l.enum` has its payload in `l`. -/
theorem snd_mem_of_mem_enum {α : Type} {x : Nat × α} {l : List α} (h : x ∈ l.enum) :
    x.2 ∈ l := by
  rw [List.mem_enum_iff_getElem?] at h
  exact List.getElem?_mem h

/-- Helper: a Purchase line yields a line detail exactly when it carries
an account-based or item-based expense detail. -/
theorem purchaseLineDetail_isSome (accountMap : String → Option AccountInfo) (line : QBLine) :
    (purchaseLineDetail accountMap line).isSome = specQualifyingLine line := by
  cases h1 : line.AccountBasedExpenseLineDetail <;>
    cases h2 : line.ItemBasedExpenseLineDetail <;>
      simp [purchaseLineDetail, specQualifyingLine, h1, h2]

/-- Helper: the amount of a Purchase line detail is the line's amount. -/
theorem purchaseLineDetail_amount (accountMap : String → Option AccountInfo)
    (line : QBLine) (d : LineDetail) (h : purchaseLineDetail accountMap line = some d) :
    d.amount = line.Amount := by
  cases h1 : line.AccountBasedExpenseLineDetail with
  | some a => rw [purchaseLineDetail, h1] at h; cases h; rfl
  | none =>
    cases h2 : line.ItemBasedExpenseLineDetail with
    | some i => rw [purchaseLineDetail, h1, h2] at h; cases h; rfl
    | none => rw [purchaseLineDetail, h1, h2] at h; cases h

/-- Helper: a Bill line yields a line detail exactly when it carries an
account-based expense detail. -/
theorem billLineDetail_isSome (line : QBLine) :
    (billLineDetail line).isSome = billQualifyingLine line := by
  cases h1 : line.AccountBasedExpenseLineDetail <;>
    simp [billLineDetail, billQualifyingLine, h1]

/-- Helper: the amount of a Bill line detail is the line's amount. -/
theorem billLineDetail_amount (line : QBLine) (d : LineDetail)
    (h : billLineDetail line = some d) : d.amount = line.Amount := by
  cases h1 : line.AccountBasedExpenseLineDetail with
  | some a => rw [billLineDetail, h1] at h; cases h; rfl
  | none => rw [billLineDetail, h1] at h; cases h

/-- C5 as stated is false on two counts: a Bill line carrying only an
item-based expense detail (qualifying per the claim) emits no
Transaction; and a qualifying Purchase line with amount `0` emits a
Transaction with amount `0`, which is not strictly negative. -/
theorem C5_counterexample :
    billTxns (fun _ => none) exBillC5 = []
    ∧ (exBillC5.Line.filter specQualifyingLine).length = 1
    ∧ (purchaseTxns (fun _ => none) (fun _ => none) exPurchaseC5).length = 1
    ∧ (purchaseTxns (fun _ => none) (fun _ => none) exPurchaseC5).map Txn.amount = [0] := by
  refine ⟨by decide, by decide, by decide, by decide⟩

/-- C5 amended: a Purchase with at least one line carrying an
account-based or item-based expense detail emits exactly one Transaction
per such line; a Bill emits exactly one Transaction per line carrying an
account-based expense detail (item-based Bill lines are skipped); every
Transaction so emitted has amount `-abs(lineAmount)`, i.e. at most zero,
and strictly negative whenever the originating line amounts are
nonzero. -/
theorem C5_amended_per_line_negative :
    (∀ (accountMap : String → Option AccountInfo) (vendorMap : String → Option String)
        (p : PurchaseRecord), 1 ≤ p.Line.countP specQualifyingLine →
      (purchaseTxns accountMap vendorMap p).length = p.Line.countP specQualifyingLine
      ∧ (∀ tx ∈ purchaseTxns accountMap vendorMap p, tx.amount ≤ 0)
      ∧ ((∀ l ∈ p.Line, specQualifyingLine l = true → l.Amount ≠ 0) →
          ∀ tx ∈ purchaseTxns accountMap vendorMap p, tx.amount < 0))
    ∧ (∀ (vendorMap : String → Option String) (b : BillRecord),
      (billTxns vendorMap b).length = b.Line.countP billQualifyingLine
      ∧ (∀ tx ∈ billTxns vendorMap b, tx.amount ≤ 0)
      ∧ ((∀ l ∈ b.Line, billQualifyingLine l = true → l.Amount ≠ 0) →
          ∀ tx ∈ billTxns vendorMap b, tx.amount < 0)) := by
  constructor
  · intro am vm p hq
    have hfun : (fun a => (purchaseLineDetail am a).isSome) = specQualifyingLine :=
      funext (purchaseLineDetail_isSome am)
    have hlen : (p.Line.filterMap (purchaseLineDetail am)).length
        = p.Line.countP specQualifyingLine := by
      rw [length_filterMap_countP, hfun]
    have hpos : 0 < (p.Line.filterMap (purchaseLineDetail am)).length := by
      rw [hlen]; omega
    unfold purchaseTxns
    dsimp only
    rw [if_pos hpos]
    refine ⟨?_, ?_, ?_⟩
    · rw [List.length_map, List.enum_length, hlen]
    · intro tx htx
      rcases List.mem_map.mp htx with ⟨il, hil, rfl⟩
      exact neg_nonpos.mpr (abs_nonneg _)
    · intro hnz tx htx
      rcases List.mem_map.mp htx with ⟨il, hil, rfl⟩
      have h2 : il.2 ∈ p.Line.filterMap (purchaseLineDetail am) := snd_mem_of_mem_enum hil
      rcases List.mem_filterMap.mp h2 with ⟨l, hl, hfd⟩
      have hamt : il.2.amount = l.Amount := purchaseLineDetail_amount am l il.2 hfd
      have hql : specQualifyingLine l = true := by
        rw [← purchaseLineDetail_isSome am l, hfd]; rfl
      have hne : l.Amount ≠ 0 := hnz l hl hql
      show -|il.2.amount| < 0
      rw [hamt]
      exact neg_lt_zero.mpr (abs_pos.mpr hne)
  · intro vm b
    have hfun : (fun a => (billLineDetail a).isSome) = billQualifyingLine :=
      funext billLineDetail_isSome
    have hlen : (b.Line.filterMap billLineDetail).length
        = b.Line.countP billQualifyingLine := by
      rw [length_filterMap_countP, hfun]
    by_cases hpos : 0 < (b.Line.filterMap billLineDetail).length
    · unfold billTxns
      dsimp only
      rw [if_pos hpos]
      refine ⟨?_, ?_, ?_⟩
      · rw [List.length_map, List.enum_length, hlen]
      · intro tx htx
        rcases List.mem_map.mp htx with ⟨il, hil, rfl⟩
        exact neg_nonpos.mpr (abs_nonneg _)
      · intro hnz tx htx
        rcases List.mem_map.mp htx with ⟨il, hil, rfl⟩
        have h2 : il.2 ∈ b.Line.filterMap billLineDetail := snd_mem_of_mem_enum hil
        rcases List.mem_filterMap.mp h2 with ⟨l, hl, hfd⟩
        have hamt : il.2.amount = l.Amount := billLineDetail_amount l il.2 hfd
        have hql : billQualifyingLine l = true := by
          rw [← billLineDetail_isSome l, hfd]; rfl
        have hne : l.Amount ≠ 0 := hnz l hl hql
        show -|il.2.amount| < 0
        rw [hamt]
        exact neg_lt_zero.mpr (abs_pos.mpr hne)
    · unfold billTxns
      dsimp only
      rw [if_neg hpos]
      refine ⟨?_, ?_, ?_⟩
      · simp only [List.length_nil]
        rw [← hlen]
        omega
      · intro tx htx; cases htx
      · intro _ tx htx; cases htx

/-- Witness for C5 amended, at a one-line Purchase and a one-line Bill. -/
theorem C5_amended_witness :
    ((purchaseTxns (fun _ => none) (fun _ => none) exPurchaseW).length
        = exPurchaseW.Line.countP specQualifyingLine
      ∧ (∀ tx ∈ purchaseTxns (fun _ => none) (fun _ => none) exPurchaseW, tx.amount ≤ 0)
      ∧ ((∀ l ∈ exPurchaseW.Line, specQualifyingLine l = true → l.Amount ≠ 0) →
          ∀ tx ∈ purchaseTxns (fun _ => none) (fun _ => none) exPurchaseW, tx.amount < 0))
    ∧ ((billTxns (fun _ => none) exBillW).length = exBillW.Line.countP billQualifyingLine
      ∧ (∀ tx ∈ billTxns (fun _ => none) exBillW, tx.amount ≤ 0)
      ∧ ((∀ l ∈ exBillW.Line, billQualifyingLine l = true → l.Amount ≠ 0) →
          ∀ tx ∈ billTxns (fun _ => none) exBillW, tx.amount < 0)) :=
  ⟨C5_amended_per_line_negative.1 (fun _ => none) (fun _ => none) exPurchaseW (by decide),
   C5_amended_per_line_negative.2 (fun _ => none) exBillW⟩

/-- Helper: the journal-entry classification skips every line whose
account type is in the balance-sheet skip list. -/
theorem jeClassify_skip (t p : String) (a : ℚ) (h : t ∈ balanceSheetSkipTypes) :
    jeClassify t p a = none := by
  have h5 : t = "Other Current Liability" ∨ t = "Long Term Liability" ∨ t = "Bank"
      ∨ t = "Other Current Asset" ∨ t = "Fixed Asset" := by
    simpa [balanceSheetSkipTypes] using h
  rcases h5 with rfl | rfl | rfl | rfl | rfl <;>
    simp [jeClassify, balanceSheetSkipTypes]

/-- C6 as stated is false: "Credit Card" is a liability (balance-sheet)
account type, yet a Debit journal-entry line on a Credit Card account is
not in the code's five-element skip list and emits a Transaction. -/
theorem C6_counterexample :
    (journalEntryTxns exAccountMapC6 exJEC6).length = 1
    ∧ acctTypeLookup exAccountMapC6 "cc1" = "Credit Card"
    ∧ "Credit Card" ∈ claimBalanceSheetTypes
    ∧ "Credit Card" ∉ balanceSheetSkipTypes := by
  refine ⟨by decide, by decide, by decide, by decide⟩

/-- C6 amended: a journal-entry line is excluded when its resolved
account type is one of the five skip-list strings (Other Current
Liability, Long Term Liability, Bank, Other Current Asset, Fixed Asset);
a journal entry all of whose lines resolve to skip-list types emits no
Transaction at all.  (Other liability/asset types such as Credit Card or
Accounts Payable are not excluded.) -/
theorem C6_amended_balance_sheet_excluded :
    (∀ (accountMap : String → Option AccountInfo) (je : JERecord) (idx : Nat)
        (line : JELine) (d : JEDetail),
        line.JournalEntryLineDetail = some d →
        acctTypeLookup accountMap d.acctRefValue ∈ balanceSheetSkipTypes →
        jeLineTxn accountMap je idx line = none)
    ∧ (∀ (accountMap : String → Option AccountInfo) (je : JERecord),
        (∀ l ∈ je.Line, ∀ d, l.JournalEntryLineDetail = some d →
          acctTypeLookup accountMap d.acctRefValue ∈ balanceSheetSkipTypes) →
        journalEntryTxns accountMap je = []) := by
  have key : ∀ (accountMap : String → Option AccountInfo) (je : JERecord) (idx : Nat)
      (line : JELine) (d : JEDetail), line.JournalEntryLineDetail = some d →
      acctTypeLookup accountMap d.acctRefValue ∈ balanceSheetSkipTypes →
      jeLineTxn accountMap je idx line = none := by
    intro am je idx line d hd hmem
    unfold jeLineTxn
    rw [hd]
    dsimp only
    by_cases hz : line.Amount = 0
    · rw [if_pos hz]
    · rw [if_neg hz, jeClassify_skip _ _ _ hmem]
  refine ⟨key, ?_⟩
  intro am je hall
  unfold journalEntryTxns
  rw [List.filterMap_eq_nil_iff]
  intro il hil
  cases hd : il.2.JournalEntryLineDetail with
  | none => unfold jeLineTxn; rw [hd]
  | some d => exact key am je il.1 il.2 d hd (hall il.2 (snd_mem_of_mem_enum hil) d hd)

/-- Witness for C6 amended: a Debit line on a Bank account emits
nothing. -/
theorem C6_amended_witness :
    jeLineTxn exAccountMapC6 exJEC6 0 exJELineBank = none :=
  C6_amended_balance_sheet_excluded.1 exAccountMapC6 exJEC6 0 exJELineBank
    { acctRefValue := "b1", acctRefName := "", PostingType := "Debit" } rfl (by decide)

/-- C7 as stated is false: the record memo is only searched for
"payroll" and "paychex", so a journal entry whose memo contains "salary"
(claim-side payroll condition true) is emitted untagged, with the plain
account name as category. -/
theorem C7_counterexample :
    (journalEntryTxns exAccountMapC7 exJEC7).map Txn.isPayroll = [false]
    ∧ (journalEntryTxns exAccountMapC7 exJEC7).map Txn.category = ["Miscellaneous"]
    ∧ claimPayrollCond "Miscellaneous" "june salary" = true
    ∧ jsOr exJEC7.PrivateNote (jsOr exJEC7.DocNumber "") = "june salary" := by
  refine ⟨by decide, by decide, by decide, by decide⟩

/-- C7 amended: an emitted journal-entry Transaction is tagged
`isPayroll` iff the resolved account name contains (case-insensitively)
one of "payroll", "wage", "salary", "paychex", or the record memo
contains "payroll" or "paychex" (the memo is not searched for "wage" or
"salary"); and its category is the fixed label "Payroll Expenses" iff it
is so tagged, the resolved account name otherwise. -/
theorem C7_amended_payroll_tag (accountMap : String → Option AccountInfo) (je : JERecord)
    (idx : Nat) (line : JELine) (d : JEDetail) (tx : Txn)
    (hd : line.JournalEntryLineDetail = some d)
    (htx : jeLineTxn accountMap je idx line = some tx) :
    (tx.isPayroll
      = (strIncludes (jsToLower (jsOr d.acctRefName
            (jsOr (acctNameLookup accountMap d.acctRefValue) "Journal Entry"))) "payroll"
        || strIncludes (jsToLower (jsOr d.acctRefName
            (jsOr (acctNameLookup accountMap d.acctRefValue) "Journal Entry"))) "wage"
        || strIncludes (jsToLower (jsOr d.acctRefName
            (jsOr (acctNameLookup accountMap d.acctRefValue) "Journal Entry"))) "salary"
        || strIncludes (jsToLower (jsOr d.acctRefName
            (jsOr (acctNameLookup accountMap d.acctRefValue) "Journal Entry"))) "paychex"
        || strIncludes (jsToLower (jsOr je.PrivateNote (jsOr je.DocNumber ""))) "payroll"
        || strIncludes (jsToLower (jsOr je.PrivateNote (jsOr je.DocNumber ""))) "paychex"))
    ∧ (tx.category = "Payroll Expenses" ↔ tx.isPayroll = true)
    ∧ (tx.isPayroll = false →
        tx.category = jsOr d.acctRefName
          (jsOr (acctNameLookup accountMap d.acctRefValue) "Journal Entry")) := by
  unfold jeLineTxn at htx
  rw [hd] at htx
  dsimp only at htx
  by_cases hz : line.Amount = 0
  · rw [if_pos hz] at htx
    exact Option.noConfusion htx
  · rw [if_neg hz] at htx
    cases hc : jeClassify (acctTypeLookup accountMap d.acctRefValue) d.PostingType line.Amount with
    | none =>
      rw [hc] at htx
      exact Option.noConfusion htx
    | some tc =>
      rw [hc] at htx
      injection htx with htx
      subst htx
      refine ⟨rfl, ?_, ?_⟩
      · by_cases hp : jePayrollTag
            (jsOr d.acctRefName (jsOr (acctNameLookup accountMap d.acctRefValue) "Journal Entry"))
            (jsOr je.PrivateNote (jsOr je.DocNumber "")) = true
        · simp only [hp]
          simp [hp]
        · have hp' : jePayrollTag
              (jsOr d.acctRefName (jsOr (acctNameLookup accountMap d.acctRefValue) "Journal Entry"))
              (jsOr je.PrivateNote (jsOr je.DocNumber "")) = false := by
            revert hp
            cases jePayrollTag
              (jsOr d.acctRefName (jsOr (acctNameLookup accountMap d.acctRefValue) "Journal Entry"))
              (jsOr je.PrivateNote (jsOr je.DocNumber "")) <;> simp
          simp only [hp', if_false, Bool.false_eq_true, iff_false]
          intro hA
          have h1 : strIncludes (jsToLower "Payroll Expenses") "payroll" = true := by decide
          have h2 := hp'
          rw [hA] at h2
          unfold jePayrollTag at h2
          rw [h1] at h2
          simp at h2
      · intro hp'
        simp only at hp'
        simp [hp']

/-- Witness for C7 amended: the transaction emitted for the `exJEC7`
line satisfies the category/tag equivalence. -/
theorem C7_amended_witness :
    jeLineTxn exAccountMapC7 exJEC7 0
      { Description := "", Amount := 100,
        JournalEntryLineDetail := some { acctRefValue := "m1", acctRefName := "",
                                         PostingType := "Debit" } }
      = some { id := "journal-901-0", qbId := "901", qbType := "JournalEntry",
               date := "2025-02-03", description := "june salary", vendor := "",
               customer := "", category := "Miscellaneous", categoryId := none,
               amount := -100, type := "expense", paymentType := "",
               source := "JournalEntry", isPayroll := false, needsReview := false }
    ∧ (({ id := "journal-901-0", qbId := "901", qbType := "JournalEntry",
          date := "2025-02-03", description := "june salary", vendor := "",
          customer := "", category := "Miscellaneous", categoryId := none,
          amount := -100, type := "expense", paymentType := "",
          source := "JournalEntry", isPayroll := false, needsReview := false } : Txn).category
          = "Payroll Expenses"
        ↔ ({ id := "journal-901-0", qbId := "901", qbType := "JournalEntry",
             date := "2025-02-03", description := "june salary", vendor := "",
             customer := "", category := "Miscellaneous", categoryId := none,
             amount := -100, type := "expense", paymentType := "",
             source := "JournalEntry", isPayroll := false, needsReview := false } : Txn).isPayroll
          = true) :=
  ⟨by decide,
   (C7_amended_payroll_tag exAccountMapC7 exJEC7 0
      { Description := "", Amount := 100,
        JournalEntryLineDetail := some { acctRefValue := "m1", acctRefName := "",
                                         PostingType := "Debit" } }
      { acctRefValue := "m1", acctRefName := "", PostingType := "Debit" }
      { id := "journal-901-0", qbId := "901", qbType := "JournalEntry",
        date := "2025-02-03", description := "june salary", vendor := "",
        customer := "", category := "Miscellaneous", categoryId := none,
        amount := -100, type := "expense", paymentType := "",
        source := "JournalEntry", isPayroll := false, needsReview := false }
      rfl (by decide)).2.1⟩

end Server
